import Mathlib

/-!
Verification of the GSE2/GSE1 waveform bindings (`obspy/gse2/core.py`).

The file under `src/` is the wrapper module `core.py`; the codec modules
`libgse2` and `libgse1` it calls are not part of the excerpt.  Definitions
translated from `core.py` follow the Python control flow line by line; each
definition standing in for a missing `libgse2`/`libgse1` entry point carries a
doc comment starting with `Modelled from the spec:` and follows the behaviour
§4.1–§4.4 of the specification prescribes for it.

Streams are modelled at block granularity: a GSE file is the list of encoded
blocks it contains (the byte-level compressed framing is explicitly left
unspecified by the spec), and a raw file used for format detection is the
list of characters of its content plus a flag telling whether opening it
fails.
-/

set_option autoImplicit false

namespace Gse

/-- Errors a read or write of a GSE file can surface, mirroring the Python
exceptions: `EOFError` from the codec at end of stream, `IOError` from
`open`, the `Exception` raised by `writeGSE2` on a wrong dtype, the
range rejection of the sample codec, and the checksum-mismatch error which
names the block identity (station, channel, start time) together with the
recorded and the computed checksum values. -/
inductive GErr where
  | eof
  | ioError
  | typeError (msg : String)
  | rangeError
  | checksumMismatch (station channel : String) (starttime : Nat)
      (recorded computed : Int)
  deriving DecidableEq, Repr

/-- The numpy dtype tag of a trace's data array, reduced to the distinction
`writeGSE2` tests: `int32` against everything else. -/
inductive DType where
  | int32
  | float64
  | other
  deriving DecidableEq, Repr

/-- The printed name of a dtype, used in the `writeGSE2` error message. -/
def DType.name : DType → String
  | .int32 => "int32"
  | .float64 => "float64"
  | .other => "other"

/-- The mandatory identity fields of a GSE block header that the claims
mention: station code, channel code and start time (modelled as an abstract
timestamp). -/
structure Gse2Header where
  station : String
  channel : String
  starttime : Nat
  deriving DecidableEq, Repr

/-- An in-memory trace: header stats, the dtype tag of its data array and the
sample values. -/
structure Trace where
  stats : Gse2Header
  dtype : DType
  data : List Int
  deriving DecidableEq, Repr

/-- One encoded block as it sits in a file: the header, the encoded sample
payload, and the checksum value recorded on the trailing checksum line. -/
structure EncBlock where
  header : Gse2Header
  payload : List Int
  chksum : Int
  deriving DecidableEq, Repr

/-- Signed 32-bit representability of a sample value. -/
def isInt32 (x : Int) : Bool :=
  decide (-2147483648 ≤ x) && decide (x < 2147483648)

/-- Helper of the sample encoder: the running-difference transform starting
from a previous value. -/
def diffAux (prev : Int) : List Int → List Int
  | [] => []
  | x :: rest => (x - prev) :: diffAux x rest

/-- Helper of the sample decoder: the running-sum transform starting from a
previous value. -/
def undiffAux (prev : Int) : List Int → List Int
  | [] => []
  | d :: rest => (prev + d) :: undiffAux (prev + d) rest

/-- Modelled from the spec: the sample encoder of the missing `libgse2`
module.  §4.3 requires a lossless compression of the integer samples whose
exact byte framing the spec leaves to the format documents; it is modelled
as the difference transform that underlies the GSE second-difference
scheme. -/
def encodeSamples (xs : List Int) : List Int :=
  diffAux 0 xs

/-- Modelled from the spec: the sample decoder of the missing `libgse2`
module, the inverse running-sum transform of `encodeSamples`. -/
def decodeSamples (ds : List Int) : List Int :=
  undiffAux 0 ds

/-- Modelled from the spec: the checksum engine of the missing `libgse2`
module, §4.4 — an order-dependent deterministic modular summation over the
decoded samples (the exact modulus is fixed by the format document and not
by the spec; one concrete modulus is used throughout). -/
def checksum (xs : List Int) : Int :=
  xs.foldl (fun a x => (a + x) % 100000000) 0

/-- The encoded block `libgse2.write` emits for one trace: the header, the
encoded payload, and the checksum computed over the samples. -/
def encTrace (t : Trace) : EncBlock :=
  ⟨t.stats, encodeSamples t.data, checksum t.data⟩

/-- The trace a full (non-headonly) read builds from one encoded block:
a `Trace(header=header, data=data)` whose data array is `int32`. -/
def decTrace (b : EncBlock) : Trace :=
  ⟨b.header, .int32, decodeSamples b.payload⟩

/-- The trace a header-only read builds from one encoded block: a
`Trace(header=header)` with the default empty float64 data array. -/
def hdrTrace (b : EncBlock) : Trace :=
  ⟨b.header, .float64, []⟩

/-- Modelled from the spec: `libgse2.read` on one available block — decode
the payload and, when verification is requested and the computed checksum
disagrees with the recorded one, fail with a checksum-mismatch error naming
the block identity and both values (§4.4); the end-of-stream case
(`EOFError`) is the empty-list case of the read loop below. -/
def libgse2read (b : EncBlock) (verify : Bool) :
    Except GErr (Gse2Header × List Int) :=
  let data := decodeSamples b.payload
  if verify && !(checksum data == b.chksum) then
    .error (.checksumMismatch b.header.station b.header.channel
      b.header.starttime b.chksum (checksum data))
  else
    .ok (b.header, data)

/-- Modelled from the spec: `libgse2.readHeader` on one available block —
parse the header line only, skip the payload, advance past the whole block
(§4.2 header-only mode); never consults the checksum. -/
def libgse2readHeader (b : EncBlock) : Except GErr Gse2Header :=
  .ok b.header

/-- Modelled from the spec: `libgse1.read`, the GSE1 analogue of
`libgse2read` (§4.2–§4.4 give both variants the same capability set). -/
def libgse1read (b : EncBlock) (verify : Bool) :
    Except GErr (Gse2Header × List Int) :=
  let data := decodeSamples b.payload
  if verify && !(checksum data == b.chksum) then
    .error (.checksumMismatch b.header.station b.header.channel
      b.header.starttime b.chksum (checksum data))
  else
    .ok (b.header, data)

/-- Modelled from the spec: `libgse1.readHeader`, the GSE1 analogue of
`libgse2readHeader`. -/
def libgse1readHeader (b : EncBlock) : Except GErr Gse2Header :=
  .ok b.header

/-- The body of one iteration of the `readGSE2` loop (`core.py` lines
60–66): header-only reads build a data-less trace via `libgse2.readHeader`,
full reads build a trace from `libgse2.read`. -/
def tryBlock2 (b : EncBlock) (headonly verify : Bool) : Except GErr Trace :=
  if headonly then
    match libgse2readHeader b with
    | .ok h => .ok ⟨h, .float64, []⟩
    | .error e => .error e
  else
    match libgse2read b verify with
    | .ok (h, d) => .ok ⟨h, .int32, d⟩
    | .error e => .error e

/-- The body of one iteration of the `readGSE1` loop (`core.py` lines
161–168). -/
def tryBlock1 (b : EncBlock) (headonly verify : Bool) : Except GErr Trace :=
  if headonly then
    match libgse1readHeader b with
    | .ok h => .ok ⟨h, .float64, []⟩
    | .error e => .error e
  else
    match libgse1read b verify with
    | .ok (h, d) => .ok ⟨h, .int32, d⟩
    | .error e => .error e

/-- The `while True` loop of `readGSE2` (`core.py` lines 59–68): read blocks
until `EOFError` (the empty stream), which is caught and breaks the loop;
any other exception propagates and discards the traces read so far.  On
success it returns the traces in file order together with the remaining
(unconsumed) part of the stream, which records the cursor position. -/
def readLoop2 (headonly verify : Bool) :
    List EncBlock → Except GErr (List Trace × List EncBlock)
  | [] => .ok ([], [])
  | b :: rest =>
    match tryBlock2 b headonly verify with
    | .error e => .error e
    | .ok tr =>
      match readLoop2 headonly verify rest with
      | .error e => .error e
      | .ok (ts, rem) => .ok (tr :: ts, rem)

/-- The `while True` loop of `readGSE1` (`core.py` lines 160–170), same
structure as `readLoop2` over the `libgse1` entry points. -/
def readLoop1 (headonly verify : Bool) :
    List EncBlock → Except GErr (List Trace × List EncBlock)
  | [] => .ok ([], [])
  | b :: rest =>
    match tryBlock1 b headonly verify with
    | .error e => .error e
    | .ok tr =>
      match readLoop1 headonly verify rest with
      | .ok (ts, rem) => .ok (tr :: ts, rem)
      | .error e => .error e

/-- `readGSE2` (`core.py` lines 30–69) over a stream of encoded blocks. -/
def readGSE2 (blocks : List EncBlock) (headonly verify : Bool) :
    Except GErr (List Trace × List EncBlock) :=
  readLoop2 headonly verify blocks

/-- `readGSE1` (`core.py` lines 131–171) over a stream of encoded blocks. -/
def readGSE1 (blocks : List EncBlock) (headonly verify : Bool) :
    Except GErr (List Trace × List EncBlock) :=
  readLoop1 headonly verify blocks

/-- Modelled from the spec: `libgse2.write` for one trace — reject any
sample outside the signed 32-bit range before emitting anything (§4.3),
otherwise emit the encoded block and, when `inplace` is set, leave the
caller's data buffer holding the compression intermediate instead of the
original samples (§6, in-place-mutation flag). -/
def libgse2write (h : Gse2Header) (data : List Int) (inplace : Bool) :
    Except GErr (EncBlock × List Int) :=
  if data.all isInt32 then
    .ok (⟨h, encodeSamples data, checksum data⟩,
      if inplace then encodeSamples data else data)
  else
    .error .rangeError

/-- The per-trace body of the `writeGSE2` loop (`core.py` lines 100–108):
check the dtype is `int32` (raising the documented `Exception` otherwise,
before `libgse2.write` is ever called for the trace), then write the block;
the trace's data array afterwards is whatever buffer `libgse2.write` left
behind. -/
def writeTrace (tr : Trace) (inplace : Bool) : Except GErr (EncBlock × Trace) :=
  if tr.dtype = .int32 then
    match libgse2write tr.stats tr.data inplace with
    | .ok (blk, d2) => .ok (blk, { tr with data := d2 })
    | .error e => .error e
  else
    .error (.typeError
      ("GSE2 data must be of type int32, but are of type " ++ tr.dtype.name))

/-- The `for trace in stream` loop of `writeGSE2` (`core.py` lines 100–108).
It returns the blocks actually emitted to the file, the caller's stream as
it stands after the call (traces the loop reached may have been rebound),
and the first error if one was raised; a raised error aborts the loop, so
nothing of the offending trace's block reaches the file. -/
def writeLoop (inplace : Bool) :
    List Trace → List EncBlock × List Trace × Option GErr
  | [] => ([], [], none)
  | tr :: rest =>
    match writeTrace tr inplace with
    | .error e => ([], tr :: rest, some e)
    | .ok (blk, tr2) =>
      let r := writeLoop inplace rest
      (blk :: r.1, tr2 :: r.2.1, r.2.2)

/-- `writeGSE2` (`core.py` lines 72–108) over an in-memory stream. -/
def writeGSE2 (stream : List Trace) (inplace : Bool) :
    List EncBlock × List Trace × Option GErr :=
  writeLoop inplace stream

/-- A file as the format detectors see it: its byte content (as characters)
and whether `open(filename, 'rb')` fails — covering files that do not exist
or cannot be opened. -/
structure RawFile where
  openFails : Bool
  content : List Char
  deriving DecidableEq

/-- Python's `f.readline()` on the file content: the characters up to and
including the first newline, or the whole content when no newline exists. -/
def pyReadline : List Char → List Char
  | [] => []
  | c :: rest => if c = '\n' then [c] else c :: pyReadline rest

/-- Modelled from the spec: `libgse2.isGse2` on an opened file — check the
first line's literal "WID2" tag (§4.2 detection) and raise a `TypeError`
when it is absent. -/
def libgse2isGse2 (content : List Char) : Except GErr Unit :=
  if List.isPrefixOf ("WID2".data) (pyReadline content) then
    .ok ()
  else
    .error (.typeError "Not a GSE2 file")

/-- The body of `isGSE2`'s `try` clause (`core.py` lines 22–24): open the
file (which can fail) and hand it to `libgse2.isGse2` (which can raise). -/
def isGSE2core (f : RawFile) : Except GErr Unit :=
  if f.openFails then .error .ioError else libgse2isGse2 f.content

/-- `isGSE2` (`core.py` lines 12–27): the bare `except` turns any failure of
the try body into `False`; otherwise the function returns `True`. -/
def isGSE2 (f : RawFile) : Bool :=
  match isGSE2core f with
  | .ok _ => true
  | .error _ => false

/-- `isGSE1` (`core.py` lines 111–128): the file is opened outside any
`try`, so an open failure propagates to the caller; an opened file is
classified by whether its first line starts with "WID1" or "XW01". -/
def isGSE1 (f : RawFile) : Except GErr Bool :=
  if f.openFails then .error .ioError
  else
    .ok (List.isPrefixOf ("WID1".data) (pyReadline f.content) ||
      List.isPrefixOf ("XW01".data) (pyReadline f.content))

/-! ### Basic codec lemmas -/

/-- The running-sum transform inverts the running-difference transform from
any starting value. -/
theorem undiffAux_diffAux (xs : List Int) :
    ∀ prev : Int, undiffAux prev (diffAux prev xs) = xs := by
  induction xs with
  | nil => intro prev; rfl
  | cons x rest ih =>
    intro prev
    simp only [diffAux, undiffAux]
    have hx : prev + (x - prev) = x := by ring
    rw [hx, ih x]

/-- Decoding after encoding is the identity on sample sequences. -/
theorem decode_encode (xs : List Int) : decodeSamples (encodeSamples xs) = xs :=
  undiffAux_diffAux xs 0

/-- The checksum recorded by `encTrace` is the checksum its decoded payload
recomputes. -/
theorem checksum_encTrace (t : Trace) :
    checksum (decodeSamples (encTrace t).payload) = (encTrace t).chksum := by
  simp [encTrace, decode_encode]

/-! ### Read-loop lemmas -/

/-- A header-only read never consults the checksum and succeeds on every
block list, consuming the whole stream. -/
theorem readLoop2_headonly (verify : Bool) (bs : List EncBlock) :
    readLoop2 true verify bs = .ok (bs.map hdrTrace, []) := by
  induction bs with
  | nil => rfl
  | cons b rest ih =>
    simp [readLoop2, tryBlock2, libgse2readHeader, ih, hdrTrace]

/-- GSE1 version of `readLoop2_headonly`. -/
theorem readLoop1_headonly (verify : Bool) (bs : List EncBlock) :
    readLoop1 true verify bs = .ok (bs.map hdrTrace, []) := by
  induction bs with
  | nil => rfl
  | cons b rest ih =>
    simp [readLoop1, tryBlock1, libgse1readHeader, ih, hdrTrace]

/-- With verification disabled, a full read succeeds on every block list,
decoding each block in order and consuming the whole stream. -/
theorem readLoop2_noverify (bs : List EncBlock) :
    readLoop2 false false bs = .ok (bs.map decTrace, []) := by
  induction bs with
  | nil => rfl
  | cons b rest ih =>
    simp [readLoop2, tryBlock2, libgse2read, ih, decTrace]

/-- GSE1 version of `readLoop2_noverify`. -/
theorem readLoop1_noverify (bs : List EncBlock) :
    readLoop1 false false bs = .ok (bs.map decTrace, []) := by
  induction bs with
  | nil => rfl
  | cons b rest ih =>
    simp [readLoop1, tryBlock1, libgse1read, ih, decTrace]

/-- When every block's recorded checksum matches the one recomputed from its
decoded payload, a full read succeeds for either verification setting,
decoding each block in order and consuming the whole stream. -/
theorem readLoop2_valid (verify : Bool) (bs : List EncBlock)
    (h : ∀ b ∈ bs, checksum (decodeSamples b.payload) = b.chksum) :
    readLoop2 false verify bs = .ok (bs.map decTrace, []) := by
  induction bs with
  | nil => rfl
  | cons b rest ih =>
    have hb := h b (List.mem_cons_self b rest)
    have hrest : ∀ x ∈ rest, checksum (decodeSamples x.payload) = x.chksum :=
      fun x hx => h x (List.mem_cons_of_mem b hx)
    simp [readLoop2, tryBlock2, libgse2read, hb, ih hrest, decTrace]

/-- GSE1 version of `readLoop2_valid`. -/
theorem readLoop1_valid (verify : Bool) (bs : List EncBlock)
    (h : ∀ b ∈ bs, checksum (decodeSamples b.payload) = b.chksum) :
    readLoop1 false verify bs = .ok (bs.map decTrace, []) := by
  induction bs with
  | nil => rfl
  | cons b rest ih =>
    have hb := h b (List.mem_cons_self b rest)
    have hrest : ∀ x ∈ rest, checksum (decodeSamples x.payload) = x.chksum :=
      fun x hx => h x (List.mem_cons_of_mem b hx)
    simp [readLoop1, tryBlock1, libgse1read, hb, ih hrest, decTrace]

/-- Reading back a stream of blocks written from `int32` traces rebuilds
exactly those traces, with checksum verification passing. -/
theorem readLoop2_encTrace (s : List Trace)
    (h : ∀ t ∈ s, t.dtype = DType.int32) :
    readLoop2 false true (s.map encTrace) = .ok (s, []) := by
  induction s with
  | nil => rfl
  | cons t rest ih =>
    have ht : t.dtype = DType.int32 := h t (List.mem_cons_self t rest)
    have hrest : ∀ x ∈ rest, x.dtype = DType.int32 :=
      fun x hx => h x (List.mem_cons_of_mem t hx)
    obtain ⟨st, dt, da⟩ := t
    have ht2 : dt = DType.int32 := ht
    subst ht2
    simp [readLoop2, tryBlock2, libgse2read, encTrace, decode_encode, ih hrest]

/-- Reading a stream whose first bad block sits after a prefix of valid
blocks fails with the bad block's checksum-mismatch error, whatever blocks
follow it: the traces decoded from the prefix are discarded and the blocks
after the bad one are never attempted. -/
theorem readLoop2_error_at_bad (pre post : List EncBlock) (bad : EncBlock)
    (hpre : ∀ b ∈ pre, checksum (decodeSamples b.payload) = b.chksum)
    (hbad : checksum (decodeSamples bad.payload) ≠ bad.chksum) :
    readLoop2 false true (pre ++ bad :: post) =
      .error (.checksumMismatch bad.header.station bad.header.channel
        bad.header.starttime bad.chksum (checksum (decodeSamples bad.payload))) := by
  induction pre with
  | nil =>
    have hne : (checksum (decodeSamples bad.payload) == bad.chksum) = false :=
      beq_eq_false_iff_ne.mpr hbad
    simp [readLoop2, tryBlock2, libgse2read, hne]
  | cons p pre ih =>
    have hp := hpre p (List.mem_cons_self p pre)
    have hpre2 : ∀ b ∈ pre, checksum (decodeSamples b.payload) = b.chksum :=
      fun b hb => hpre b (List.mem_cons_of_mem p hb)
    simp [readLoop2, tryBlock2, libgse2read, hp, ih hpre2]

/-! ### Write-loop lemmas -/

/-- Writing a stream of well-formed `int32` traces with `inplace=False`
emits one encoded block per trace, raises nothing, and leaves the caller's
stream as it was. -/
theorem writeLoop_ok (s : List Trace)
    (h : ∀ t ∈ s, t.dtype = DType.int32 ∧ t.data.all isInt32 = true) :
    writeLoop false s = (s.map encTrace, s, none) := by
  induction s with
  | nil => rfl
  | cons t rest ih =>
    obtain ⟨ht1, ht2⟩ := h t (List.mem_cons_self t rest)
    have hrest : ∀ x ∈ rest, x.dtype = DType.int32 ∧ x.data.all isInt32 = true :=
      fun x hx => h x (List.mem_cons_of_mem t hx)
    obtain ⟨st, dt, da⟩ := t
    have ht3 : dt = DType.int32 := ht1
    subst ht3
    simp [writeLoop, writeTrace, libgse2write, ht2, ih hrest, encTrace]

/-- A write that reaches a trace whose dtype is not `int32` raises the dtype
error there: the file holds exactly the complete encoded blocks of the
preceding traces and nothing of the offending trace's block. -/
theorem writeLoop_aborts_at_bad (inplace : Bool) (pre post : List Trace)
    (bad : Trace)
    (hpre : ∀ t ∈ pre, t.dtype = DType.int32 ∧ t.data.all isInt32 = true)
    (hbad : bad.dtype ≠ DType.int32) :
    (writeLoop inplace (pre ++ bad :: post)).1 = pre.map encTrace ∧
    (writeLoop inplace (pre ++ bad :: post)).2.2 =
      some (.typeError
        ("GSE2 data must be of type int32, but are of type " ++ bad.dtype.name)) := by
  induction pre with
  | nil =>
    simp [writeLoop, writeTrace, hbad]
  | cons p pre ih =>
    obtain ⟨hp1, hp2⟩ := hpre p (List.mem_cons_self p pre)
    have hpre2 : ∀ t ∈ pre, t.dtype = DType.int32 ∧ t.data.all isInt32 = true :=
      fun t hb => hpre t (List.mem_cons_of_mem p hb)
    simp [writeLoop, writeTrace, libgse2write, hp1, hp2, (ih hpre2).1,
      (ih hpre2).2, encTrace]

/-- With `inplace=False` the sample values of every trace in the caller's
stream are unchanged by the write, whether or not the write succeeds. -/
theorem writeLoop_false_preserves_data (s : List Trace) :
    ((writeLoop false s).2.1).map Trace.data = s.map Trace.data := by
  induction s with
  | nil => rfl
  | cons t rest ih =>
    by_cases h1 : t.dtype = DType.int32
    · by_cases h2 : t.data.all isInt32 = true
      · simp [writeLoop, writeTrace, libgse2write, h1, h2, ih]
      · simp [writeLoop, writeTrace, libgse2write, h1, h2]
    · simp [writeLoop, writeTrace, h1]

/-- Whether a read or write result is a normal return rather than a raised
exception. -/
def resultOk {α : Type} : Except GErr α → Bool
  | .ok _ => true
  | .error _ => false

/-- The traces a caller of `readGSE2`/`readGSE1` receives: the Stream on a
normal return, nothing when the call raises. -/
def resultTraces : Except GErr (List Trace × List EncBlock) → Option (List Trace)
  | .ok (ts, _) => some ts
  | .error _ => none

/-- Whichever setting `verify` has, a full read of valid blocks or a
header-only read of any blocks returns normally. -/
theorem readLoop2_isOk (headonly verify : Bool) (bs : List EncBlock)
    (h : ∀ b ∈ bs, checksum (decodeSamples b.payload) = b.chksum) :
    resultOk (readLoop2 headonly verify bs) = true := by
  cases headonly with
  | true => rw [readLoop2_headonly]; rfl
  | false =>
    cases verify with
    | false => rw [readLoop2_noverify]; rfl
    | true => rw [readLoop2_valid true bs h]; rfl

/-- GSE1 version of `readLoop2_isOk`. -/
theorem readLoop1_isOk (headonly verify : Bool) (bs : List EncBlock)
    (h : ∀ b ∈ bs, checksum (decodeSamples b.payload) = b.chksum) :
    resultOk (readLoop1 headonly verify bs) = true := by
  cases headonly with
  | true => rw [readLoop1_headonly]; rfl
  | false =>
    cases verify with
    | false => rw [readLoop1_noverify]; rfl
    | true => rw [readLoop1_valid true bs h]; rfl

/-! ### Concrete fixtures used by witnesses and counterexamples -/

/-- A two-trace stream of `int32` samples. -/
def demoStream : List Trace :=
  [⟨⟨"RJOB", "Z", 0⟩, .int32, [12, -5, 7]⟩,
   ⟨⟨"RJOB", "N", 60⟩, .int32, [0, 2147483647, -2147483648]⟩]

/-- An encoded block whose recorded checksum matches its decoded samples
`[1, 2, 3]`. -/
def cexGood : EncBlock := ⟨⟨"STA", "SHZ", 100⟩, [1, 1, 1], 6⟩

/-- An encoded block whose recorded checksum 999 disagrees with the value 5
recomputed from its decoded sample `[5]`. -/
def cexBad : EncBlock := ⟨⟨"STB", "SHE", 200⟩, [5], 999⟩

/-- A trace whose sample 3000000000 exceeds the signed 32-bit range, with
the matching non-`int32` dtype. -/
def badTrace : Trace := ⟨⟨"STC", "SHN", 300⟩, .float64, [3000000000]⟩

/-- An openable file whose first line carries the "WID2" tag. -/
def demoFile2 : RawFile := ⟨false, ("WID2 2005/08/31 02:33:49.850 RJOB\nrest".data)⟩

/-- An openable file whose first line carries the "WID1" tag. -/
def demoFile1 : RawFile := ⟨false, ("WID1 y2000\nrest".data)⟩

/-- A file that cannot be opened. -/
def badFile : RawFile := ⟨true, []⟩

/-! ### The claims -/

/-- C1: Sample round-trip — for every Stream whose traces carry signed
32-bit integer sample sequences, writing it with `writeGSE2` and reading
the result back with `readGSE2` raises nothing and yields the same traces,
sample-for-sample, with the cursor at end of stream. -/
theorem c1_write_read_roundtrip (s : List Trace)
    (h : ∀ t ∈ s, t.dtype = DType.int32 ∧ t.data.all isInt32 = true) :
    (writeGSE2 s false).2.2 = none ∧
    readGSE2 (writeGSE2 s false).1 false true = .ok (s, []) := by
  have hw := writeLoop_ok s h
  have hd : ∀ t ∈ s, t.dtype = DType.int32 := fun t ht => (h t ht).1
  constructor
  · simp [writeGSE2, hw]
  · simp [writeGSE2, readGSE2, hw, readLoop2_encTrace s hd]

/-- Witness for C1 on a concrete two-trace stream. -/
theorem c1_write_read_roundtrip_witness :
    (writeGSE2 demoStream false).2.2 = none ∧
    readGSE2 (writeGSE2 demoStream false).1 false true = .ok (demoStream, []) :=
  c1_write_read_roundtrip demoStream (by decide)

/-- C2 counterexample: on a two-block stream whose second block has a
corrupted checksum, read with verification enabled, the first block decodes
successfully on its own, yet `readGSE2` surfaces only the raised
checksum-mismatch error — the caller receives no traces at all, so the
already-decoded first block is not available to the caller. -/
theorem c2_counterexample :
    tryBlock2 cexGood false true = .ok (decTrace cexGood) ∧
    readGSE2 [cexGood, cexBad] false true =
      .error (.checksumMismatch "STB" "SHE" 200 999 5) ∧
    resultTraces (readGSE2 [cexGood, cexBad] false true) = none := by
  refine ⟨rfl, rfl, rfl⟩

/-- C2 (amended): a mid-stream checksum failure at block N with
verification enabled surfaces the Nth block's checksum-mismatch error and
attempts no further blocks (the result does not depend on the blocks after
it); the first N−1 blocks had decoded successfully — a read of the prefix
alone returns them — but `readGSE2` discards them when it raises, so they
are not returned to the caller. -/
theorem c2_error_surfaced_partial_discarded (pre post : List EncBlock)
    (bad : EncBlock)
    (hpre : ∀ b ∈ pre, checksum (decodeSamples b.payload) = b.chksum)
    (hbad : checksum (decodeSamples bad.payload) ≠ bad.chksum) :
    readGSE2 (pre ++ bad :: post) false true =
      .error (.checksumMismatch bad.header.station bad.header.channel
        bad.header.starttime bad.chksum (checksum (decodeSamples bad.payload))) ∧
    readGSE2 pre false true = .ok (pre.map decTrace, []) :=
  ⟨readLoop2_error_at_bad pre post bad hpre hbad, readLoop2_valid true pre hpre⟩

/-- Witness for the amended C2 on the concrete two-block stream. -/
theorem c2_error_surfaced_partial_discarded_witness :
    readGSE2 [cexGood, cexBad] false true =
      .error (.checksumMismatch "STB" "SHE" 200 999 5) ∧
    readGSE2 [cexGood] false true = .ok ([decTrace cexGood], []) :=
  c2_error_surfaced_partial_discarded [cexGood] [] cexBad (by decide) (by decide)

/-- C3: end of stream at a block boundary is not an error — on an empty
stream both read loops return an empty Stream at once, and on a stream of
valid blocks both loops return normally (no exception) for every
`headonly`/`verify_chksum` combination. -/
theorem c3_eof_normal_termination (headonly verify : Bool) (bs : List EncBlock)
    (h : ∀ b ∈ bs, checksum (decodeSamples b.payload) = b.chksum) :
    readGSE2 [] headonly verify = .ok ([], []) ∧
    readGSE1 [] headonly verify = .ok ([], []) ∧
    resultOk (readGSE2 bs headonly verify) = true ∧
    resultOk (readGSE1 bs headonly verify) = true :=
  ⟨rfl, rfl, readLoop2_isOk headonly verify bs h,
    readLoop1_isOk headonly verify bs h⟩

/-- Witness for C3 on the concrete one-valid-block stream. -/
theorem c3_eof_normal_termination_witness :
    readGSE2 [] false true = .ok ([], []) ∧
    readGSE1 [] false true = .ok ([], []) ∧
    resultOk (readGSE2 [cexGood] false true) = true ∧
    resultOk (readGSE1 [cexGood] false true) = true :=
  c3_eof_normal_termination false true [cexGood] (by decide)

/-- C4: a stream of exactly K valid blocks yields exactly K decoded traces
in file order with the cursor at end of stream, for both variants; the
zero-block stream yields an empty, immediately terminated sequence. -/
theorem c4_k_blocks_yield_k_traces (bs : List EncBlock)
    (h : ∀ b ∈ bs, checksum (decodeSamples b.payload) = b.chksum) :
    readGSE2 bs false true = .ok (bs.map decTrace, []) ∧
    readGSE1 bs false true = .ok (bs.map decTrace, []) ∧
    (bs.map decTrace).length = bs.length ∧
    readGSE2 ([] : List EncBlock) false true = .ok ([], []) ∧
    readGSE1 ([] : List EncBlock) false true = .ok ([], []) :=
  ⟨readLoop2_valid true bs h, readLoop1_valid true bs h, by simp, rfl, rfl⟩

/-- Witness for C4 on the concrete one-valid-block stream. -/
theorem c4_k_blocks_yield_k_traces_witness :
    readGSE2 [cexGood] false true = .ok ([decTrace cexGood], []) ∧
    readGSE1 [cexGood] false true = .ok ([decTrace cexGood], []) ∧
    ([cexGood].map decTrace).length = [cexGood].length ∧
    readGSE2 ([] : List EncBlock) false true = .ok ([], []) ∧
    readGSE1 ([] : List EncBlock) false true = .ok ([], []) :=
  c4_k_blocks_yield_k_traces [cexGood] (by decide)

/-- C5: for every openable file, `isGSE1` returns `True` exactly when the
first line starts with "WID1" or "XW01", and `isGSE2` returns `True`
exactly when the GSE2 detector recognizes the first line's "WID2" tag. -/
theorem c5_detection_by_literal_tag (f : RawFile) (hopen : f.openFails = false) :
    (isGSE1 f = .ok true ↔
      (List.isPrefixOf ("WID1".data) (pyReadline f.content) = true ∨
        List.isPrefixOf ("XW01".data) (pyReadline f.content) = true)) ∧
    (isGSE2 f = true ↔
      List.isPrefixOf ("WID2".data) (pyReadline f.content) = true) := by
  constructor
  · simp [isGSE1, hopen]
  · by_cases hp : List.isPrefixOf ("WID2".data) (pyReadline f.content) = true
    · simp [isGSE2, isGSE2core, libgse2isGse2, hopen, hp]
    · simp [isGSE2, isGSE2core, libgse2isGse2, hopen, hp]

/-- Witness for C5: a "WID1" file is detected as GSE1, a "WID2" file as
GSE2. -/
theorem c5_detection_by_literal_tag_witness :
    isGSE1 demoFile1 = .ok true ∧ isGSE2 demoFile2 = true :=
  ⟨(c5_detection_by_literal_tag demoFile1 rfl).1.mpr (Or.inl (by decide)),
    (c5_detection_by_literal_tag demoFile2 rfl).2.mpr (by decide)⟩

/-- C6: writing a stream that reaches a trace holding a sample not
representable as a signed 32-bit integer raises the type error before any
bytes of that trace's block are emitted — the file holds exactly the
complete blocks of the preceding traces, never a half-written block. -/
theorem c6_write_rejects_unrepresentable (inplace : Bool)
    (pre post : List Trace) (bad : Trace)
    (hpre : ∀ t ∈ pre, t.dtype = DType.int32 ∧ t.data.all isInt32 = true)
    (hwf : bad.dtype = DType.int32 → bad.data.all isInt32 = true)
    (hbad : ∃ x ∈ bad.data, isInt32 x = false) :
    (writeGSE2 (pre ++ bad :: post) inplace).1 = pre.map encTrace ∧
    (writeGSE2 (pre ++ bad :: post) inplace).2.2 =
      some (.typeError
        ("GSE2 data must be of type int32, but are of type " ++ bad.dtype.name)) := by
  have hdt : bad.dtype ≠ DType.int32 := by
    intro hd
    obtain ⟨x, hx, hfalse⟩ := hbad
    have hall := List.all_eq_true.mp (hwf hd) x hx
    rw [hfalse] at hall
    cases hall
  exact writeLoop_aborts_at_bad inplace pre post bad hpre hdt

/-- Witness for C6: one good trace followed by a trace carrying the
out-of-range sample 3000000000. -/
theorem c6_write_rejects_unrepresentable_witness :
    (writeGSE2 (demoStream ++ badTrace :: []) false).1 = demoStream.map encTrace ∧
    (writeGSE2 (demoStream ++ badTrace :: []) false).2.2 =
      some (.typeError
        ("GSE2 data must be of type int32, but are of type " ++ badTrace.dtype.name)) :=
  c6_write_rejects_unrepresentable false demoStream [] badTrace
    (by decide) (by decide) (by decide)

/-- C7: checksum verification is opt-in per read call — with
`verify_chksum=False` a corrupted checksum does not make the read fail,
and with `verify_chksum=True` the read fails with a checksum-mismatch error
carrying the block's station, channel and start time together with the
recorded and the computed checksum values. -/
theorem c7_verify_chksum_optin (b : EncBlock) (rest : List EncBlock)
    (hb : checksum (decodeSamples b.payload) ≠ b.chksum) :
    readGSE2 (b :: rest) false false = .ok ((b :: rest).map decTrace, []) ∧
    readGSE2 (b :: rest) false true =
      .error (.checksumMismatch b.header.station b.header.channel
        b.header.starttime b.chksum (checksum (decodeSamples b.payload))) :=
  ⟨readLoop2_noverify (b :: rest),
    readLoop2_error_at_bad [] rest b (by simp) hb⟩

/-- Witness for C7 on the concrete corrupted block. -/
theorem c7_verify_chksum_optin_witness :
    readGSE2 [cexBad] false false = .ok ([decTrace cexBad], []) ∧
    readGSE2 [cexBad] false true =
      .error (.checksumMismatch "STB" "SHE" 200 999 5) :=
  c7_verify_chksum_optin cexBad [] (by decide)

/-- C8: after a `writeGSE2` call with `inplace=False`, every trace in the
caller's stream still holds its original sample values. -/
theorem c8_inplace_false_preserves_samples (s : List Trace) :
    ((writeGSE2 s false).2.1).map Trace.data = s.map Trace.data :=
  writeLoop_false_preserves_data s

/-- C9: `isGSE2` is total — its try/except turns any failure (unopenable
file or non-GSE2 bytes) into `False` and a success into `True`, never
propagating an exception — while `isGSE1` opens the file outside any try
and so propagates an open failure to the caller. -/
theorem c9_isGSE2_total_isGSE1_unguarded (f : RawFile) :
    (f.openFails = true → isGSE2 f = false) ∧
    (resultOk (isGSE2core f) = false → isGSE2 f = false) ∧
    (resultOk (isGSE2core f) = true → isGSE2 f = true) ∧
    (f.openFails = true → isGSE1 f = .error .ioError) := by
  refine ⟨?_, ?_, ?_, ?_⟩
  · intro h
    simp [isGSE2, isGSE2core, h]
  · intro h
    cases hc : isGSE2core f with
    | ok u => rw [hc] at h; cases h
    | error e => simp [isGSE2, hc]
  · intro h
    cases hc : isGSE2core f with
    | ok u => simp [isGSE2, hc]
    | error e => rw [hc] at h; cases h
  · intro h
    simp [isGSE1, h]

/-- Witness for C9 on a file that cannot be opened. -/
theorem c9_isGSE2_total_isGSE1_unguarded_witness :
    isGSE2 badFile = false ∧ isGSE1 badFile = .error .ioError :=
  ⟨(c9_isGSE2_total_isGSE1_unguarded badFile).1 rfl,
    (c9_isGSE2_total_isGSE1_unguarded badFile).2.2.2 rfl⟩

/-- C10: with `headonly=True` the `verify_chksum` argument has no effect on
either reader — the result is identical for any two settings — and a
header-only read never raises, whatever the checksum lines hold. -/
theorem c10_headonly_ignores_verify (bs : List EncBlock) (v1 v2 : Bool) :
    readGSE2 bs true v1 = readGSE2 bs true v2 ∧
    readGSE1 bs true v1 = readGSE1 bs true v2 ∧
    resultOk (readGSE2 bs true v1) = true ∧
    resultOk (readGSE1 bs true v1) = true := by
  refine ⟨?_, ?_, ?_, ?_⟩
  · rw [readGSE2, readGSE2, readLoop2_headonly, readLoop2_headonly]
  · rw [readGSE1, readGSE1, readLoop1_headonly, readLoop1_headonly]
  · rw [readGSE2, readLoop2_headonly]; rfl
  · rw [readGSE1, readLoop1_headonly]; rfl

end Gse
